import Mathlib

/-!
Shallow embedding of the mediastream core: the three media source variants
(static image, animated GIF, ffmpeg-backed video), the source dispatcher
`Open`, and the server lifecycle (`New`, `Server.Start`, `Server.Stop`).

Conventions: byte values are `Nat` (0..255); wall-clock instants and
durations are nanosecond counts (`Nat`), with the monotonic clock passed
explicitly as a `now` parameter; Go `error` results are `Option`/`Except`
values over the structured error type `MediaErr`.  File-system and codec
results, which are external to the core logic, are supplied by an abstract
environment `Env`.
-/

/-- Structured counterpart of the Go `error` values produced by the media
and server layers. -/
inductive MediaErr where
  | fileOpenFailure (path : String)
  | decodeFailure (path : String)
  | noFrames (path : String)
  | unsupportedFormat (ext : List Char) (supported : List String)
  | decoderUnavailable
  | spawnFailure
  | readFailure
  | processDone
  deriving DecidableEq

/-- One decoded GIF frame: JPEG-encoded bytes plus the frame's delay in
nanoseconds.  Mirrors the `gifFrame` struct. -/
structure gifFrame where
  data : List Nat
  delay : Nat
  deriving DecidableEq

/-- Mirrors the `gifSource` struct: decoded frames, current index, and the
instant (`lastAt`) at which the current frame began displaying.  The Go
mutex only serialises calls, so the sequential semantics is this pure
state. -/
structure gifSource where
  frames : List gifFrame
  index : Nat
  lastAt : Nat
  deriving DecidableEq

/-- Mirrors `gifSource.NextFrame`: read the frame at the current index;
if the elapsed time since `lastAt` (computed as `now - lastAt`, an integer,
as `time.Since` does) has reached that frame's delay, advance the index by
one modulo the frame count and reset `lastAt` to `now`; return the bytes
captured before the advance together with a nil error and the new state. -/
def gifSource.NextFrame (s : gifSource) (now : Nat) :
    List Nat × Option MediaErr × gifSource :=
  let frame := s.frames.getD s.index { data := [], delay := 0 }
  let s' :=
    if (now : Int) - (s.lastAt : Int) ≥ (frame.delay : Int) then
      { s with index := (s.index + 1) % s.frames.length, lastAt := now }
    else s
  (frame.data, none, s')

/-- Mirrors `gifSource.Close`, which returns nil unconditionally. -/
def gifSource.Close (s : gifSource) : Option MediaErr := none

/-- Mirrors the `imageSource` struct: the single pre-encoded JPEG. -/
structure imageSource where
  frame : List Nat
  deriving DecidableEq

/-- Mirrors `imageSource.NextFrame`: returns the stored bytes, a nil error,
and the unchanged state. -/
def imageSource.NextFrame (s : imageSource) :
    List Nat × Option MediaErr × imageSource :=
  (s.frame, none, s)

/-- Mirrors `imageSource.Close`, which returns nil unconditionally. -/
def imageSource.Close (s : imageSource) : Option MediaErr := none

/-- Abstract environment for the construction paths.  `fileExists path`
models whether `os.Open path` succeeds; `decodeImage path` is the
re-encoded JPEG of the image at `path` when decode and JPEG re-encode both
succeed; `decodeGif path` is the list of (re-encoded JPEG bytes, authored
delay in centiseconds) pairs when GIF decode and per-frame re-encode
succeed; `ffmpegAvailable` models `exec.LookPath "ffmpeg"`; `spawnOk`
models the stdout-pipe creation and `cmd.Start` succeeding; `now` is the
clock read by `time.Now()` during construction. -/
structure Env where
  fileExists : String → Bool
  decodeImage : String → Option (List Nat)
  decodeGif : String → Option (List (List Nat × Nat))
  ffmpegAvailable : Bool
  spawnOk : Bool
  now : Nat

/-- Mirrors `newImageSource`: open the file, decode, re-encode as JPEG. -/
def newImageSource (env : Env) (path : String) : Except MediaErr imageSource :=
  if env.fileExists path then
    match env.decodeImage path with
    | some bs => .ok { frame := bs }
    | none => .error (.decodeFailure path)
  else .error (.fileOpenFailure path)

/-- Mirrors `newGIFSource`: open the file, decode all frames, fail on zero
frames, convert each authored delay from centiseconds to a duration
(`delay * 10ms`, i.e. `* 10000000` ns) substituting the fallback
`time.Second / frameRate` when the authored delay is zero, and start at
index 0 with `lastAt = time.Now()`. -/
def newGIFSource (env : Env) (path : String) (frameRate : Nat) :
    Except MediaErr gifSource :=
  if env.fileExists path then
    match env.decodeGif path with
    | some decoded =>
      if decoded.length = 0 then .error (.noFrames path)
      else
        let fallbackDelay := 1000000000 / frameRate
        .ok { frames := decoded.map fun p =>
                { data := p.1
                  delay := if p.2 = 0 then fallbackDelay else p.2 * 10000000 }
              index := 0
              lastAt := env.now }
    | none => .error (.decodeFailure path)
  else .error (.fileOpenFailure path)

/-- Mirrors the `videoSource` struct after `spawn`: the configuration it
retains.  The process/pipe handles are modelled by `videoProcState`, and
the stdout byte stream is passed to `videoSource.NextFrame` explicitly as
the list of chunks that successive `Read` calls deliver. -/
structure videoSource where
  path : String
  frameRate : Nat
  deriving DecidableEq

/-- Mirrors `newVideoSource` (plus `spawn`): check `ffmpeg` is resolvable,
then create the stdout pipe and start the process.  The input path is
never opened or checked here — it is only an argument handed to the
spawned decoder. -/
def newVideoSource (env : Env) (path : String) (frameRate : Nat) :
    Except MediaErr videoSource :=
  if env.ffmpegAvailable then
    if env.spawnOk then .ok { path := path, frameRate := frameRate }
    else .error .spawnFailure
  else .error .decoderUnavailable

/-- One byte read from the decoder's stdout (`readByte`, an
`io.ReadFull` of a single byte): take the first byte of the first
non-empty pending chunk; a drained stream is a read error. -/
def readOneByte : List (List Nat) → Option (Nat × List (List Nat))
  | [] => none
  | [] :: rest => readOneByte rest
  | (b :: bs) :: rest => some (b, bs :: rest)

/-- One buffered read (`s.stdout.Read(chunk)` with a 4096-byte buffer):
deliver the next non-empty pending chunk, capped at 4096 bytes; a drained
stream is a read error. -/
def readChunk4096 : List (List Nat) → Option (List Nat × List (List Nat))
  | [] => none
  | c :: rest =>
    if c.isEmpty then readChunk4096 rest
    else if c.length ≤ 4096 then some (c, rest)
    else some (c.take 4096, c.drop 4096 :: rest)

/-- Index of the first occurrence of the JPEG EOI marker `0xFF 0xD9`
(`bytes.Index(frame, []byte{0xFF, 0xD9})`). -/
def findEOI : List Nat → Option Nat
  | [] => none
  | [_] => none
  | a :: b :: rest =>
    if a = 255 ∧ b = 217 then some 0
    else (findEOI (b :: rest)).map (· + 1)

/-- The SOI-scanning loop of `videoSource.NextFrame`: read single bytes
until a `0xFF` immediately followed by `0xD8` is consumed; on success
return the pending stream positioned just past the marker.  When the byte
after a `0xFF` is not `0xD8` it is consumed and not re-examined, exactly
as the Go loop's `continue` does.  `fuel` bounds the loop for recursion;
each step consumes at least one byte. -/
def scanSOI : Nat → List (List Nat) → Option (List (List Nat))
  | 0, _ => none
  | fuel + 1, chunks =>
    match readOneByte chunks with
    | none => none
    | some (b, rest) =>
      if b = 255 then
        match readOneByte rest with
        | none => none
        | some (b2, rest2) =>
          if b2 = 216 then some rest2 else scanSOI fuel rest2
      else scanSOI fuel rest

/-- The frame-body loop of `videoSource.NextFrame`: append each chunk read
to the accumulated `frame`; as soon as the EOI marker occurs in the
accumulation, return `frame[:idx+2]` together with the not-yet-read
remainder of the stream.  The bytes of the accumulation beyond `idx+2`
were already consumed from the pipe and are not returned and not carried
anywhere — exactly as in the Go code, which returns `frame[:idx+2]` and
discards the rest of `frame`. -/
def readFrameLoop : Nat → List Nat → List (List Nat) →
    Option (List Nat × List (List Nat))
  | 0, _, _ => none
  | fuel + 1, frame, chunks =>
    match readChunk4096 chunks with
    | none => none
    | some (c, rest) =>
      let frame2 := frame ++ c
      match findEOI frame2 with
      | some idx => some (frame2.take (idx + 2), rest)
      | none => readFrameLoop fuel frame2 rest

/-- Total number of pending bytes, used as loop fuel. -/
def totalLen (chunks : List (List Nat)) : Nat := (chunks.map List.length).sum

/-- Mirrors `videoSource.NextFrame` over the pending stdout stream: scan
for the SOI marker discarding earlier bytes, then accumulate chunks until
the EOI marker appears, returning the frame bytes (SOI through EOI
inclusive) and the unread remainder of the stream.  `none` models the
error return on a failed read. -/
def videoSource.NextFrame (chunks : List (List Nat)) :
    Option (List Nat × List (List Nat)) :=
  let fuel := totalLen chunks + 1
  match scanSOI fuel chunks with
  | none => none
  | some rest => readFrameLoop fuel [255, 216] rest

/-- Process and pipe handles held by a `videoSource` at `Close` time.
`procReaped` records whether `Wait` or `Release` was ever called on the
process handle; this repository never calls either. -/
structure videoProcState where
  stdoutOpen : Bool
  procStarted : Bool
  procAlive : Bool
  procReaped : Bool
  deriving DecidableEq

/-- Go `os.Process.Kill` on a started process, per its documented
behaviour: it reports `ErrProcessDone` only when the process handle was
already released or waited on; otherwise the signal is delivered — an
exited but unreaped process still accepts it — and the call succeeds. -/
def processKill (st : videoProcState) : Option MediaErr × videoProcState :=
  if st.procReaped then (some .processDone, st)
  else (none, { st with procAlive := false })

/-- Mirrors `videoSource.Close`: close the stdout pipe if the handle is
non-nil (the result of that close is ignored, and the handle stays
non-nil), then kill the process if `cmd` and `cmd.Process` are non-nil,
returning the kill's result; otherwise return nil. -/
def videoSource.Close (st : videoProcState) : Option MediaErr × videoProcState :=
  let st1 := if st.stdoutOpen then { st with stdoutOpen := false } else st
  if st1.procStarted then processKill st1 else (none, st1)

/-- Lower-casing of an extension, as `strings.ToLower` acts on the ASCII
extensions involved. -/
def lowerChars (cs : List Char) : List Char := cs.map Char.toLower

/-- Helper for `extOf`: the input is the reversed path and `acc` holds the
characters already passed, in original order.  Stop at a path separator;
on the first dot found, the extension is that dot plus the passed
characters. -/
def extOfRev (acc : List Char) : List Char → List Char
  | [] => []
  | c :: rest =>
    if c = '/' then []
    else if c = '.' then '.' :: acc
    else extOfRev (c :: acc) rest

/-- Go `filepath.Ext`: the suffix beginning at the final dot in the final
path element, empty if there is no dot. -/
def extOf (path : String) : List Char := extOfRev [] path.data.reverse

/-- Which branch of `Open`'s switch statement an extension selects. -/
inductive ExtClass where
  | image
  | gifClass
  | video
  | unsupported
  deriving DecidableEq

/-- Mirrors the `SupportedExtensions` variable, in its declared order. -/
def SupportedExtensions : List String :=
  [".jpg", ".jpeg", ".png", ".webp", ".bmp",
   ".gif",
   ".mp4", ".mkv", ".mov", ".avi",
   ".webm", ".flv", ".ts", ".m4v"]

/-- The switch of `Open` on an already lower-cased extension. -/
def classifyLower (e : List Char) : ExtClass :=
  if e = ".jpg".data ∨ e = ".jpeg".data ∨ e = ".png".data ∨
     e = ".webp".data ∨ e = ".bmp".data then .image
  else if e = ".gif".data then .gifClass
  else if e = ".mp4".data ∨ e = ".mkv".data ∨ e = ".mov".data ∨
          e = ".avi".data ∨ e = ".webm".data ∨ e = ".flv".data ∨
          e = ".ts".data ∨ e = ".m4v".data then .video
  else .unsupported

/-- The branch selected for a raw extension: `Open` lower-cases first
(`ext := strings.ToLower(filepath.Ext(path))`), then switches. -/
def classifyExt (e : List Char) : ExtClass := classifyLower (lowerChars e)

/-- The dispatcher's result: one of the three constructed variants. -/
inductive Source where
  | image (s : imageSource)
  | gif (s : gifSource)
  | video (s : videoSource)
  deriving DecidableEq

/-- Mirrors `media.Open`: lower-case the path's extension and dispatch on
it, or fail with the unsupported-format error listing
`SupportedExtensions`. -/
def Open (env : Env) (path : String) (frameRate : Nat) : Except MediaErr Source :=
  match classifyExt (extOf path) with
  | .image => (newImageSource env path).map .image
  | .gifClass => (newGIFSource env path frameRate).map .gif
  | .video => (newVideoSource env path frameRate).map .video
  | .unsupported => .error (.unsupportedFormat (lowerChars (extOf path)) SupportedExtensions)

/-- Mirrors `server.Config`. -/
structure Config where
  FilePath : String
  Port : Nat
  FrameRate : Nat
  deriving DecidableEq

/-- The data `server.New` establishes: effective configuration plus the
constructed media source. -/
structure ServerInit where
  cfg : Config
  source : Source
  deriving DecidableEq

/-- Mirrors `server.New`: substitute 30 for a zero `FrameRate`, then open
the media source with the effective configuration; any open error aborts
construction. -/
def New (env : Env) (cfg : Config) : Except MediaErr ServerInit :=
  let cfg := if cfg.FrameRate = 0 then { cfg with FrameRate := 30 } else cfg
  (Open env cfg.FilePath cfg.FrameRate).map fun src => { cfg := cfg, source := src }

/-- Observable lifecycle state of a `Server`: the `started` flag, whether
the cancel function has been installed, and counters for how many times
the context cancel, `source.Close`, and `httpSrv.Shutdown` have been
invoked. -/
structure ServerState where
  started : Bool
  cancelSet : Bool
  cancelCalls : Nat
  closeCalls : Nat
  shutdownCalls : Nat
  deriving DecidableEq

/-- Errors of the server lifecycle. -/
inductive SrvErr where
  | alreadyRunning
  | closeFailed (code : Nat)
  | shutdownFailed (code : Nat)
  deriving DecidableEq

/-- Mirrors `Server.Start` up to the blocking `ListenAndServe` call: the
guard and state mutations performed under the lock.  A `none` result means
the call passed the guard and proceeded to serve. -/
def Server.Start (st : ServerState) : Option SrvErr × ServerState :=
  if st.started then (some .alreadyRunning, st)
  else (none, { st with started := true, cancelSet := true })

/-- Mirrors `Server.Stop`.  `closeErr` and `shutdownErr` are the results
the environment gives to `s.source.Close()` and `httpSrv.Shutdown(ctx)`
respectively (error codes as `Nat`).  Not running: return nil with no
state change.  Running: clear `started`, call the cancel function if set,
call `source.Close`; if that fails, return its (wrapped) error at once —
`Shutdown` is not called; otherwise call `Shutdown` and return its
result. -/
def Server.Stop (st : ServerState) (closeErr shutdownErr : Option Nat) :
    Option SrvErr × ServerState :=
  if st.started then
    let st1 := { st with started := false }
    let st2 := if st1.cancelSet then { st1 with cancelCalls := st1.cancelCalls + 1 } else st1
    let st3 := { st2 with closeCalls := st2.closeCalls + 1 }
    match closeErr with
    | some e => (some (.closeFailed e), st3)
    | none =>
      (shutdownErr.map .shutdownFailed,
       { st3 with shutdownCalls := st3.shutdownCalls + 1 })
  else (none, st)

/-- Repeated calls to `imageSource.NextFrame`, threading the returned
state: the byte outputs of `n` successive calls. -/
def imageSource.run (s : imageSource) : Nat → List (List Nat)
  | 0 => []
  | n + 1 => (s.NextFrame).1 :: imageSource.run (s.NextFrame).2.2 n

/-- A two-frame animated source used to exhibit the pre-advance return of
`gifSource.NextFrame`: frame 0 carries bytes `[0]`, frame 1 carries bytes
`[1]`, both with a 5ns delay, and the current frame started at instant 0. -/
def gifEx : gifSource :=
  { frames := [{ data := [0], delay := 5 }, { data := [1], delay := 5 }]
    index := 0
    lastAt := 0 }

/-- Claim C1 (counterexample): at instant 5 the elapsed time equals frame
0's delay, so the index advances to 1 and `lastAt` resets, but the call
returns frame 0's bytes `[0]`, not the bytes `[1]` of the frame selected
after the advance — refuting the claim that the possibly just-advanced
frame's bytes are returned. -/
theorem gifSource.NextFrame_returns_preadvance_cex :
    (gifEx.NextFrame 5).2.2.index = 1 ∧
    (gifEx.NextFrame 5).2.2.lastAt = 5 ∧
    (gifEx.NextFrame 5).1 = [0] ∧
    (gifEx.frames.getD (gifEx.NextFrame 5).2.2.index { data := [], delay := 0 }).data = [1] ∧
    (gifEx.NextFrame 5).1 ≠
      (gifEx.frames.getD (gifEx.NextFrame 5).2.2.index { data := [], delay := 0 }).data := by
  decide

/-- Claim C1 (amended): when the elapsed wall-clock time since `lastAt`
reaches the current frame's delay, `NextFrame` advances the index by one
modulo the frame count and resets `lastAt` to now, but returns the bytes
of the frame that was current *before* the advance; the advanced frame is
served from the next call on. -/
theorem gifSource.NextFrame_advance_spec (s : gifSource) (now : Nat)
    (h : (now : Int) - (s.lastAt : Int) ≥
      ((s.frames.getD s.index { data := [], delay := 0 }).delay : Int)) :
    s.NextFrame now =
      ((s.frames.getD s.index { data := [], delay := 0 }).data, none,
        { s with index := (s.index + 1) % s.frames.length, lastAt := now }) := by
  simp only [gifSource.NextFrame]
  rw [if_pos h]

/-- Witness for `gifSource.NextFrame_advance_spec` at the concrete source
`gifEx` and instant 7. -/
theorem gifSource.NextFrame_advance_spec_witness :
    gifEx.NextFrame 7 =
      ((gifEx.frames.getD gifEx.index { data := [], delay := 0 }).data, none,
        { gifEx with index := (gifEx.index + 1) % gifEx.frames.length, lastAt := 7 }) :=
  gifSource.NextFrame_advance_spec gifEx 7 (by decide)

/-- Claim C2: the decoder-stream demultiplexer at a concrete stream that
is the concatenation of two minimal JPEGs `FF D8 FF D9`, delivered by a
single read.  The first call returns the first frame with byte-exact
boundaries but hands back an empty pending stream: the four bytes of the
second JPEG, which were read in the same chunk beyond the EOI marker, are
discarded rather than retained, and a call on the drained remainder fails —
the second frame can never be returned. -/
theorem videoSource.NextFrame_drops_trailing_bytes :
    videoSource.NextFrame [[255, 216, 255, 217, 255, 216, 255, 217]] =
      some ([255, 216, 255, 217], []) ∧
    videoSource.NextFrame [] = none := by decide

/-- Claim C7: after a successful construction the frame count is at least
one and the index starts in range, and every `NextFrame` call keeps the
index in range, moves it by at most one position (it is either unchanged
or the successor modulo the frame count), and leaves the frame list
unchanged. -/
theorem gifSource.index_invariant :
    (∀ (env : Env) (path : String) (fr : Nat) (s : gifSource),
        newGIFSource env path fr = .ok s →
          1 ≤ s.frames.length ∧ s.index < s.frames.length) ∧
    (∀ (s : gifSource) (now : Nat), s.index < s.frames.length →
        (s.NextFrame now).2.2.index < s.frames.length ∧
        ((s.NextFrame now).2.2.index = s.index ∨
          (s.NextFrame now).2.2.index = (s.index + 1) % s.frames.length) ∧
        (s.NextFrame now).2.2.frames = s.frames) := by
  constructor
  · intro env path fr s hok
    unfold newGIFSource at hok
    split at hok
    next hfe =>
      split at hok
      next decoded hd =>
        split at hok
        next hlen => exact absurd hok (by simp)
        next hlen =>
          injection hok with hs
          subst hs
          refine ⟨?_, ?_⟩ <;> simp only [List.length_map] <;> omega
      next hd => exact absurd hok (by simp)
    next hfe => exact absurd hok (by simp)
  · intro s now h
    have hpos : 0 < s.frames.length := Nat.lt_of_le_of_lt (Nat.zero_le _) h
    simp only [gifSource.NextFrame]
    split
    · exact ⟨Nat.mod_lt _ hpos, Or.inr rfl, rfl⟩
    · exact ⟨h, Or.inl rfl, rfl⟩

/-- Environment and expected result used by the witness of
`gifSource.index_invariant`. -/
def envGifW : Env :=
  { fileExists := fun _ => true
    decodeImage := fun _ => none
    decodeGif := fun _ => some [([5], 2)]
    ffmpegAvailable := true
    spawnOk := true
    now := 0 }

/-- The source `newGIFSource envGifW "x.gif" 30` constructs. -/
def gifW : gifSource :=
  { frames := [{ data := [5], delay := 20000000 }], index := 0, lastAt := 0 }

/-- Witness for `gifSource.index_invariant`: both conjuncts instantiated at
the concrete construction `envGifW`/`gifW` and instant 7. -/
theorem gifSource.index_invariant_witness :
    (1 ≤ gifW.frames.length ∧ gifW.index < gifW.frames.length) ∧
    ((gifW.NextFrame 7).2.2.index < gifW.frames.length ∧
      ((gifW.NextFrame 7).2.2.index = gifW.index ∨
        (gifW.NextFrame 7).2.2.index = (gifW.index + 1) % gifW.frames.length) ∧
      (gifW.NextFrame 7).2.2.frames = gifW.frames) :=
  ⟨gifSource.index_invariant.1 envGifW "x.gif" 30 gifW rfl,
   gifSource.index_invariant.2 gifW 7 (by decide)⟩

/-- Claim C8: `imageSource.NextFrame` mutates no state, and any number of
repeated calls return byte-identical output — the stored JPEG — every
time. -/
theorem imageSource.NextFrame_constant (s : imageSource) (n : Nat) :
    imageSource.run s n = List.replicate n s.frame ∧ (s.NextFrame).2.2 = s := by
  refine ⟨?_, rfl⟩
  induction n with
  | zero => rfl
  | succ n ih =>
    simpa [imageSource.run, imageSource.NextFrame, List.replicate_succ] using ih

/-- Claim C10: for the static-image and animated sources, the error branch
is unreachable: every `NextFrame` and every `Close` returns a nil error. -/
theorem sources_never_error (s : gifSource) (t : imageSource) (now : Nat) :
    (s.NextFrame now).2.1 = none ∧ s.Close = none ∧
    (t.NextFrame).2.1 = none ∧ t.Close = none :=
  ⟨rfl, rfl, rfl, rfl⟩

/-- A running server with all effect counters at zero, used by the C3
counterexample and witness. -/
def srvRunW : ServerState :=
  { started := true, cancelSet := true, cancelCalls := 0,
    closeCalls := 0, shutdownCalls := 0 }

/-- Claim C3 (counterexample): stopping a running session whose source
`Close` fails (error code 0) reports the close fault and marks the session
not-running, but the listener shutdown is never attempted
(`shutdownCalls` stays 0) — refuting the claim that the shutdown is
attempted even when the close fails. -/
theorem Server.Stop_skips_shutdown_on_close_failure_cex :
    Server.Stop srvRunW (some 0) none =
      (some (.closeFailed 0),
       { started := false, cancelSet := true, cancelCalls := 1,
         closeCalls := 1, shutdownCalls := 0 }) ∧
    (Server.Stop srvRunW (some 0) none).2.shutdownCalls = 0 := by
  decide

/-- Claim C3 (amended): `Stop` on a running session always cancels the
shared context, always attempts the source close, and always marks the
session not-running; if the close succeeds, the listener shutdown is
attempted and its result is returned; if the close fails, that fault is
returned to the caller at once and the listener shutdown is *not*
attempted. -/
theorem Server.Stop_spec (st : ServerState) (closeErr shutdownErr : Option Nat)
    (h : st.started = true) :
    (Server.Stop st closeErr shutdownErr).2.started = false ∧
    (Server.Stop st closeErr shutdownErr).2.closeCalls = st.closeCalls + 1 ∧
    (st.cancelSet = true →
      (Server.Stop st closeErr shutdownErr).2.cancelCalls = st.cancelCalls + 1) ∧
    (closeErr = none →
      (Server.Stop st closeErr shutdownErr).2.shutdownCalls = st.shutdownCalls + 1 ∧
      (Server.Stop st closeErr shutdownErr).1 = shutdownErr.map SrvErr.shutdownFailed) ∧
    (∀ e, closeErr = some e →
      (Server.Stop st closeErr shutdownErr).1 = some (.closeFailed e) ∧
      (Server.Stop st closeErr shutdownErr).2.shutdownCalls = st.shutdownCalls) := by
  unfold Server.Stop
  rw [if_pos h]
  cases closeErr <;> cases hc : st.cancelSet <;> simp [hc]

/-- Witness for `Server.Stop_spec` at the running state `srvRunW` with a
succeeding close and a succeeding shutdown. -/
theorem Server.Stop_spec_witness :
    (Server.Stop srvRunW none none).2.started = false ∧
    (Server.Stop srvRunW none none).2.closeCalls = srvRunW.closeCalls + 1 ∧
    (srvRunW.cancelSet = true →
      (Server.Stop srvRunW none none).2.cancelCalls = srvRunW.cancelCalls + 1) ∧
    ((none : Option Nat) = none →
      (Server.Stop srvRunW none none).2.shutdownCalls = srvRunW.shutdownCalls + 1 ∧
      (Server.Stop srvRunW none none).1 = (none : Option Nat).map SrvErr.shutdownFailed) ∧
    (∀ e, (none : Option Nat) = some e →
      (Server.Stop srvRunW none none).1 = some (.closeFailed e) ∧
      (Server.Stop srvRunW none none).2.shutdownCalls = srvRunW.shutdownCalls) :=
  Server.Stop_spec srvRunW none none rfl

/-- Claim C4: `videoSource.Close` never errs while the process handle was
never waited on or released — which this repository never does — whether
or not the process is still alive (so in particular after it exited on its
own), and a second `Close` also succeeds and leaves the state exactly
where the first left it. -/
theorem videoSource.Close_idempotent_ok (st : videoProcState)
    (h : st.procReaped = false) :
    (videoSource.Close st).1 = none ∧
    (videoSource.Close (videoSource.Close st).2).1 = none ∧
    (videoSource.Close (videoSource.Close st).2).2 = (videoSource.Close st).2 := by
  unfold videoSource.Close processKill
  cases hso : st.stdoutOpen <;> cases hps : st.procStarted <;> simp [h, hso, hps]

/-- Witness for `videoSource.Close_idempotent_ok`: the process already
exited on its own (`procAlive = false`), the pipe is still open, and the
handle was never reaped. -/
theorem videoSource.Close_idempotent_ok_witness :
    (videoSource.Close
        { stdoutOpen := true, procStarted := true, procAlive := false,
          procReaped := false }).1 = none ∧
    (videoSource.Close (videoSource.Close
        { stdoutOpen := true, procStarted := true, procAlive := false,
          procReaped := false }).2).1 = none ∧
    (videoSource.Close (videoSource.Close
        { stdoutOpen := true, procStarted := true, procAlive := false,
          procReaped := false }).2).2 =
      (videoSource.Close
        { stdoutOpen := true, procStarted := true, procAlive := false,
          procReaped := false }).2 :=
  videoSource.Close_idempotent_ok
    { stdoutOpen := true, procStarted := true, procAlive := false,
      procReaped := false } rfl

/-- Environment used by the C5 counterexample and witness: no path exists
on the file system, while the ffmpeg binary is available and spawning
succeeds. -/
def envNoFileC5 : Env :=
  { fileExists := fun _ => false
    decodeImage := fun _ => none
    decodeGif := fun _ => none
    ffmpegAvailable := true
    spawnOk := true
    now := 0 }

/-- Claim C5 (counterexample): opening a nonexistent path with the
recognized video extension `.mp4` does not fail with `FileOpenFailure` —
the dispatcher constructs a video source without ever touching the path —
refuting the claim that construction fails with `FileOpenFailure` for
every recognized extension class. -/
theorem Open_video_missing_path_ok_cex :
    Open envNoFileC5 "movie.mp4" 30 =
      .ok (.video { path := "movie.mp4", frameRate := 30 }) ∧
    envNoFileC5.fileExists "movie.mp4" = false := by
  exact ⟨rfl, rfl⟩

/-- Claim C5 (amended): the dispatcher matches the extension
case-insensitively; an extension outside the supported set fails with the
unsupported-format error listing `SupportedExtensions` and constructs no
source; a nonexistent path with a static-image or gif extension fails with
`FileOpenFailure`; a video extension never has its path checked at
construction: it fails with `DecoderUnavailable` exactly when the decoder
binary is missing and otherwise (spawn succeeding) constructs the source
even for a nonexistent path. -/
theorem Open_dispatch_spec (env : Env) (path : String) (fr : Nat) :
    (∀ e1 e2 : List Char, lowerChars e1 = lowerChars e2 →
        classifyExt e1 = classifyExt e2) ∧
    (classifyExt (extOf path) = .unsupported →
        Open env path fr =
          .error (.unsupportedFormat (lowerChars (extOf path)) SupportedExtensions)) ∧
    (classifyExt (extOf path) = .image → env.fileExists path = false →
        Open env path fr = .error (.fileOpenFailure path)) ∧
    (classifyExt (extOf path) = .gifClass → env.fileExists path = false →
        Open env path fr = .error (.fileOpenFailure path)) ∧
    (classifyExt (extOf path) = .video → env.ffmpegAvailable = false →
        Open env path fr = .error .decoderUnavailable) ∧
    (classifyExt (extOf path) = .video → env.ffmpegAvailable = true →
        env.spawnOk = true →
        Open env path fr = .ok (.video { path := path, frameRate := fr })) := by
  refine ⟨?_, ?_, ?_, ?_, ?_, ?_⟩
  · intro e1 e2 he
    unfold classifyExt
    rw [he]
  · intro hcl
    simp [Open, hcl]
  · intro hcl hfe
    simp [Open, hcl, newImageSource, hfe, Except.map]
  · intro hcl hfe
    simp [Open, hcl, newGIFSource, hfe, Except.map]
  · intro hcl hff
    simp [Open, hcl, newVideoSource, hff, Except.map]
  · intro hcl hff hsp
    simp [Open, hcl, newVideoSource, hff, hsp, Except.map]

/-- Witness for `Open_dispatch_spec`: the unsupported extension `.xyz` is
rejected with the unsupported-format error, and the nonexistent paths
`img.JPG` and `anim.GiF` (upper-case extensions, showing the
case-insensitive match) are rejected with `FileOpenFailure`. -/
theorem Open_dispatch_spec_witness :
    Open envNoFileC5 "file.xyz" 30 =
      .error (.unsupportedFormat (lowerChars (extOf "file.xyz")) SupportedExtensions) ∧
    Open envNoFileC5 "img.JPG" 30 = .error (.fileOpenFailure "img.JPG") ∧
    Open envNoFileC5 "anim.GiF" 30 = .error (.fileOpenFailure "anim.GiF") :=
  ⟨(Open_dispatch_spec envNoFileC5 "file.xyz" 30).2.1 (by decide),
   (Open_dispatch_spec envNoFileC5 "img.JPG" 30).2.2.1 (by decide) rfl,
   (Open_dispatch_spec envNoFileC5 "anim.GiF" 30).2.2.2.1 (by decide) rfl⟩

/-- Claim C6: `Start` on a running session fails with the already-running
error and changes no state, and `Stop` on a non-running session returns
success and changes no state — no cancellation, no source close, no
listener shutdown. -/
theorem Server.lifecycle_guards (st : ServerState) (closeErr shutdownErr : Option Nat) :
    (st.started = true → Server.Start st = (some .alreadyRunning, st)) ∧
    (st.started = false → Server.Stop st closeErr shutdownErr = (none, st)) := by
  constructor
  · intro h
    simp [Server.Start, h]
  · intro h
    simp [Server.Stop, h]

/-- Witness for `Server.lifecycle_guards`: a concrete running state is left
unchanged by `Start`, and a concrete idle state is left unchanged by a
`Stop` whose close and shutdown would both fail if they were attempted. -/
theorem Server.lifecycle_guards_witness :
    Server.Start
        { started := true, cancelSet := true, cancelCalls := 2,
          closeCalls := 0, shutdownCalls := 0 } =
      (some .alreadyRunning,
       { started := true, cancelSet := true, cancelCalls := 2,
         closeCalls := 0, shutdownCalls := 0 }) ∧
    Server.Stop
        { started := false, cancelSet := false, cancelCalls := 0,
          closeCalls := 0, shutdownCalls := 0 } (some 3) (some 4) =
      (none,
       { started := false, cancelSet := false, cancelCalls := 0,
         closeCalls := 0, shutdownCalls := 0 }) :=
  ⟨(Server.lifecycle_guards
      { started := true, cancelSet := true, cancelCalls := 2,
        closeCalls := 0, shutdownCalls := 0 } (some 3) (some 4)).1 rfl,
   (Server.lifecycle_guards
      { started := false, cancelSet := false, cancelCalls := 0,
        closeCalls := 0, shutdownCalls := 0 } (some 3) (some 4)).2 rfl⟩

/-- Claim C9: when the configured frame rate is zero, `New` behaves
exactly as with a frame rate of 30 — the substitution happens before the
media source is opened — and any successfully constructed server carries
the effective frame rate 30, which the streaming tick interval and the GIF
zero-delay fallback then use. -/
theorem New_default_framerate (env : Env) (cfg : Config) (h : cfg.FrameRate = 0) :
    New env cfg = New env { cfg with FrameRate := 30 } ∧
    (∀ s, New env cfg = .ok s → s.cfg.FrameRate = 30) := by
  constructor
  · simp [New, h]
  · intro s hs
    simp only [New, h, if_pos] at hs
    cases hopen : Open env cfg.FilePath 30 with
    | error e =>
      rw [hopen] at hs
      exact absurd hs (by simp [Except.map])
    | ok src =>
      rw [hopen] at hs
      simp only [Except.map] at hs
      injection hs with hs
      subst hs
      rfl

/-- Environment used by the witness of `New_default_framerate`: a file
exists and decodes, so construction succeeds. -/
def envNewW : Env :=
  { fileExists := fun _ => true
    decodeImage := fun _ => some [1]
    decodeGif := fun _ => none
    ffmpegAvailable := false
    spawnOk := false
    now := 0 }

/-- Witness for `New_default_framerate` at a zero-frame-rate configuration
over a decodable static image. -/
theorem New_default_framerate_witness :
    New envNewW { FilePath := "a.jpg", Port := 8080, FrameRate := 0 } =
      New envNewW { FilePath := "a.jpg", Port := 8080, FrameRate := 30 } ∧
    (∀ s, New envNewW { FilePath := "a.jpg", Port := 8080, FrameRate := 0 } = .ok s →
      s.cfg.FrameRate = 30) :=
  New_default_framerate envNewW { FilePath := "a.jpg", Port := 8080, FrameRate := 0 } rfl
